import Mathlib

/-
  Shallow embedding of the slackblocks object model
  (blocks / elements / views and their resolution protocol).

  Python conventions modelled explicitly:
  * exceptions become `Except PyErr`;
  * `None` becomes `Option.none`;
  * Python truthiness is modelled per type (`""`, `[]`, `0`, `None`, `False`
    are falsy; every object instance is truthy);
  * Python dicts are insertion-ordered association lists;
  * `uuid4()` is modelled by a generator state `Gen` threaded through the
    constructors that call it (only `Block.__init__` does).
-/

namespace Slackblocks

/-- Element kind tags, from `ElementType` in `elements/base_elements.py`. -/
inductive ElementType
  | TEXT
  | IMAGE
  | TIME_PICKER
  | DATE_PICKER
  | STATIC_SELECT
  | CHECKBOXES
  | MULTI_USERS_SELECT
  | BUTTON
  | CONFIRM
  | PLAIN_TEXT_INPUT
  deriving DecidableEq, Repr

def ElementType.value : ElementType → String
  | .TEXT => "text"
  | .IMAGE => "image"
  | .TIME_PICKER => "timepicker"
  | .DATE_PICKER => "datepicker"
  | .STATIC_SELECT => "static_select"
  | .CHECKBOXES => "checkboxes"
  | .MULTI_USERS_SELECT => "multi_users_select"
  | .BUTTON => "button"
  | .CONFIRM => "confirm"
  | .PLAIN_TEXT_INPUT => "plain_text_input"

/-- Text kind tags, from `TextType` in `elements/base_elements.py`. -/
inductive TextType
  | MARKDOWN
  | PLAINTEXT
  deriving DecidableEq, Repr

def TextType.value : TextType → String
  | .MARKDOWN => "mrkdwn"
  | .PLAINTEXT => "plain_text"

/-- A Python enum value: members of distinct enum classes are never equal
under Python `==`.  Needed because `Text._resolve` compares the inherited
`self.type` (an `ElementType`) against `TextType.PLAINTEXT`. -/
inductive EnumV
  | eltype (e : ElementType)
  | txtype (t : TextType)
  deriving DecidableEq, Repr

/-- Errors raised by the embedded code: `InvalidUsageError` from
`slackblocks/errors.py` plus Python built-in `TypeError` / `AttributeError`
that the source can hit through dynamic typing. -/
inductive PyErr
  | invalidUsage (msg : String)
  | typeError (msg : String)
  | attributeError (msg : String)
  deriving DecidableEq, Repr

/-- `Text`, from `elements/base_elements.py`.  `verbatim` and `emoji` are
`Option Bool` because the constructor stores Python `None` in the branch
that does not apply to the text kind. -/
structure Text where
  type : EnumV
  text_type : TextType
  text : String
  verbatim : Option Bool
  emoji : Option Bool
  deriving DecidableEq, Repr

/-- `Text.__init__` with the emoji/verbatim arguments as the Python values
passed (possibly `None`, as `ImageBlock.__init__` does). -/
def Text.init (text : String) (type_ : TextType) (emoji : Option Bool)
    (verbatim : Option Bool) : Text :=
  { type := .eltype .TEXT
    text_type := type_
    text := text
    verbatim := if type_ = .MARKDOWN then verbatim else none
    emoji := if type_ = .MARKDOWN then none else emoji }

/-- `Text(...)` with plain bool arguments (the declared defaults are
`emoji=False`, `verbatim=False`). -/
def Text.make (text : String) (type_ : TextType := .MARKDOWN)
    (emoji : Bool := false) (verbatim : Bool := false) : Text :=
  Text.init text type_ (some emoji) (some verbatim)

/-- Truthiness of an `Option Bool` Python value (`None` and `False` falsy). -/
def truthyOptBool : Option Bool → Bool
  | none => false
  | some b => b

/-- JSON-compatible Python values produced by resolution.  Dicts preserve
insertion order.  `rawText` models a spot where the source stores a raw
(unresolved) Python object into the output dict; the only such objects that
matter below are `Confirm` instances, captured by their four `Text` fields
via `rawConfirm`. -/
inductive Val
  | str (s : String)
  | bool (b : Bool)
  | int (n : Int)
  | null
  | dict (entries : List (String × Val))
  | list (items : List Val)
  | rawConfirm (title text confirm deny : Option Text)
  deriving Repr

/-- Key membership in a resolved (insertion-ordered) dict. -/
def dictHasKey : List (String × Val) → String → Bool
  | [], _ => false
  | (k, _) :: rest, key => if k = key then true else dictHasKey rest key

def Val.hasKey : Val → String → Bool
  | .dict entries, key => dictHasKey entries key
  | _, _ => false

/-- `Text._resolve`.  Mirrors the source exactly: the `elif` compares
`self.type` (always `ElementType.TEXT`) with `TextType.PLAINTEXT`, a
cross-enum comparison that is always false in Python. -/
def Text.resolve (t : Text) : Val :=
  let base := [("type", Val.str t.text_type.value), ("text", Val.str t.text)]
  if t.text_type = .MARKDOWN then
    Val.dict (base ++ [("verbatim", t.verbatim.elim Val.null Val.bool)])
  else if t.type = EnumV.txtype .PLAINTEXT ∧ truthyOptBool t.emoji then
    Val.dict (base ++ [("emoji", t.emoji.elim Val.null Val.bool)])
  else
    Val.dict base

def lengthLimitMsg : String := "Text length exceeds Slack-imposed limit"

def lenOfTextMsg : String := "object of type Text has no len()"

/-- Truthiness of `Option Nat` (`max_length` may be `None`). -/
def truthyOptNat : Option Nat → Bool
  | none => false
  | some n => n ≠ 0

/-- `Text.to_text`.  The input is `None`, a `str`, or a `Text` instance.
In the `Text` branch the source evaluates `len(text)` on the `Text`
object itself, which defines no `__len__`, so whenever `max_length` is
truthy that branch raises `TypeError` before any length comparison. -/
def Text.to_text (text : Option (String ⊕ Text)) (force_plaintext : Bool := false)
    (max_length : Option Nat := none) : Except PyErr (Option Text) :=
  let type_ : TextType := if force_plaintext then .PLAINTEXT else .MARKDOWN
  match text with
  | none => .ok none
  | some (.inl s) =>
    if s = "" then .ok none
    else if truthyOptNat max_length ∧ s.length > max_length.getD 0 then
      .error (.invalidUsage lengthLimitMsg)
    else .ok (some (Text.make s type_))
  | some (.inr t) =>
    if truthyOptNat max_length then .error (.typeError lenOfTextMsg)
    else .ok (some (Text.make t.text type_))

/-- Truthiness of an optional string (`None` and `""` falsy). -/
def truthyOptStr : Option String → Bool
  | none => false
  | some s => s ≠ ""

/-- Truthiness of an optional int (`None` and `0` falsy). -/
def truthyOptInt : Option Int → Bool
  | none => false
  | some n => n ≠ 0

/-- Truthiness of an optional list (`None` and `[]` falsy). -/
def truthyOptList {α : Type} : Option (List α) → Bool
  | none => false
  | some l => !l.isEmpty

/-- Truthiness of an optional object instance (only `None` falsy). -/
def truthyOptObj {α : Type} : Option α → Bool
  | none => false
  | some _ => true

/-- The common `Element._attributes` dict prefix. -/
def elementAttributes (t : ElementType) : List (String × Val) :=
  [("type", Val.str t.value)]

def resolveNoneMsg : String := "NoneType object has no attribute resolve"

/-- `self.x._resolve()` where `x` may be Python `None`. -/
def resolveOptText : Option Text → Except PyErr Val
  | none => .error (.attributeError resolveNoneMsg)
  | some t => .ok t.resolve

/-- `Image` element, from `elements/common_elements.py`. -/
structure Image where
  image_url : String
  alt_text : String
  deriving DecidableEq, Repr

def Image.resolve (i : Image) : Val :=
  Val.dict (elementAttributes .IMAGE ++
    [("image_url", Val.str i.image_url), ("alt_text", Val.str i.alt_text)])

/-- `Confirm` element, from `elements/common_elements.py`.  Each field is
`Option Text` because `Text.to_text` returns `None` on empty input. -/
structure Confirm where
  title : Option Text
  text : Option Text
  confirm : Option Text
  deny : Option Text
  deriving DecidableEq, Repr

/-- `Confirm.__init__`: the four coercions, in source order. -/
def Confirm.make (title text confirm deny : String ⊕ Text) :
    Except PyErr Confirm := do
  let t ← Text.to_text (some title) true (some 100)
  let x ← Text.to_text (some text) false (some 300)
  let c ← Text.to_text (some confirm) true (some 30)
  let d ← Text.to_text (some deny) true (some 30)
  .ok { title := t, text := x, confirm := c, deny := d }

/-- `Confirm._resolve` (note: no `type` key in the source). -/
def Confirm.resolve (c : Confirm) : Except PyErr Val := do
  let t ← resolveOptText c.title
  let x ← resolveOptText c.text
  let cf ← resolveOptText c.confirm
  let d ← resolveOptText c.deny
  .ok (Val.dict [("title", t), ("text", x), ("confirm", cf), ("deny", d)])

/-- `Button` element, from `elements/common_elements.py`. -/
structure Button where
  text : Option Text
  action_id : String
  url : Option String
  value : Option String
  style : Option String
  confirm : Option Confirm
  deriving DecidableEq, Repr

def Button.make (text : String ⊕ Text) (action_id : String)
    (url value style : Option String := none)
    (confirm : Option Confirm := none) : Except PyErr Button := do
  let t ← Text.to_text (some text) true (some 75)
  .ok { text := t, action_id := action_id, url := url, value := value,
        style := style, confirm := confirm }

def Button.resolve (b : Button) : Except PyErr Val := do
  let t ← resolveOptText b.text
  let base := elementAttributes .BUTTON ++
    [("text", t), ("action_id", Val.str b.action_id)]
  let base := if truthyOptStr b.style then
    base ++ [("style", Val.str (b.style.getD ""))] else base
  let base := if truthyOptStr b.url then
    base ++ [("url", Val.str (b.url.getD ""))] else base
  let base := if truthyOptStr b.value then
    base ++ [("value", Val.str (b.value.getD ""))] else base
  match b.confirm with
  | some c => do
    let cv ← c.resolve
    .ok (Val.dict (base ++ [("confirm", cv)]))
  | none => .ok (Val.dict base)

/-- `DispatchActionConfig`, from `elements/common_elements.py`. -/
structure DispatchActionConfig where
  on_character_entered : Bool
  on_enter_pressed : Bool
  deriving DecidableEq, Repr

def DispatchActionConfig.resolve (d : DispatchActionConfig) : Val :=
  let actions : List Val :=
    (if d.on_character_entered then [Val.str "on_character_entered"] else []) ++
    (if d.on_enter_pressed then [Val.str "on_enter_pressed"] else [])
  Val.dict [("trigger_actions_on", Val.list actions)]

/-- `TextInput` element, from `elements/common_elements.py`. -/
structure TextInput where
  action_id : String
  placeholder : Option Text
  initial_value : Option String
  multiline : Bool
  min_length : Option Int
  max_length : Option Int
  dispatch_config : Option DispatchActionConfig
  deriving DecidableEq, Repr

def TextInput.make (action_id : String)
    (placeholder : Option (String ⊕ Text) := none)
    (initial_value : Option String := none) (multiline : Bool := false)
    (min_length max_length : Option Int := none)
    (dispatch_config : Option DispatchActionConfig := none) :
    Except PyErr TextInput := do
  let p ← Text.to_text placeholder true (some 150)
  .ok { action_id := action_id, placeholder := p,
        initial_value := initial_value, multiline := multiline,
        min_length := min_length, max_length := max_length,
        dispatch_config := dispatch_config }

def TextInput.resolve (t : TextInput) : Val :=
  let f := elementAttributes .PLAIN_TEXT_INPUT ++
    [("action_id", Val.str t.action_id), ("multiline", Val.bool t.multiline)]
  let f := match t.placeholder with
    | some p => f ++ [("placeholder", p.resolve)]
    | none => f
  let f := if truthyOptStr t.initial_value then
    f ++ [("initial_value", Val.str (t.initial_value.getD ""))] else f
  let f := if truthyOptInt t.min_length then
    f ++ [("min_length", Val.int (t.min_length.getD 0))] else f
  let f := if truthyOptInt t.max_length then
    f ++ [("max_length", Val.int (t.max_length.getD 0))] else f
  let f := match t.dispatch_config with
    | some d => f ++ [("dispatch_action_config", d.resolve)]
    | none => f
  Val.dict f

/-- `OptionObject`, from `elements/selector_elements.py`. -/
structure OptionObject where
  text : Option Text
  value : String
  description : Option Text
  url : Option String
  deriving DecidableEq, Repr

def OptionObject.make (text : String ⊕ Text) (value : String)
    (description : Option (String ⊕ Text) := none)
    (url : Option String := none) : Except PyErr OptionObject := do
  let t ← Text.to_text (some text) true (some 75)
  let d ← Text.to_text description true (some 75)
  .ok { text := t, value := value, description := d, url := url }

def OptionObject.resolve (o : OptionObject) : Except PyErr Val := do
  let t ← resolveOptText o.text
  let base := [("text", t), ("value", Val.str o.value)]
  let withDesc ← match o.description with
    | some d => pure (base ++ [("description", d.resolve)])
    | none => pure base
  if truthyOptStr o.url then
    .ok (Val.dict (withDesc ++ [("url", Val.str (o.url.getD ""))]))
  else .ok (Val.dict withDesc)

/-- `OptionGroup`, from `elements/selector_elements.py`. -/
structure OptionGroup where
  label : Option Text
  options : List OptionObject
  deriving DecidableEq, Repr

def OptionGroup.make (label : String ⊕ Text) (options : List OptionObject) :
    Except PyErr OptionGroup := do
  let l ← Text.to_text (some label) true (some 75)
  .ok { label := l, options := options }

def OptionGroup.resolve (og : OptionGroup) : Except PyErr Val := do
  let l ← resolveOptText og.label
  let os ← og.options.mapM OptionObject.resolve
  .ok (Val.dict [("label", l), ("options", Val.list os)])

def optionsNeitherMsg : String := "Either options or option group should be passed"

def optionsBothMsg : String := "Both options and option group cannot be passed"

def strResolveMsg : String := "str object has no attribute resolve"

/-- `StaticSelect` element.  The declared type of `initial_option` is
`Optional[str]`, but resolution calls `._resolve()` on it; the sum also
admits an `OptionObject`, which duck typing would accept. -/
structure StaticSelect where
  action_id : String
  options : Option (List OptionObject)
  option_group : Option OptionGroup
  placeholder : Option Text
  initial_option : Option (String ⊕ OptionObject)
  confirm : Option Confirm
  deriving DecidableEq, Repr

/-- `StaticSelect.__init__`: the options/option_group checks run before the
placeholder coercion, in source order. -/
def StaticSelect.make (action_id : String) (placeholder : String ⊕ Text)
    (options : Option (List OptionObject) := none)
    (option_group : Option OptionGroup := none)
    (initial_option : Option (String ⊕ OptionObject) := none)
    (confirm : Option Confirm := none) : Except PyErr StaticSelect := do
  if !truthyOptList options ∧ !truthyOptObj option_group then
    .error (.invalidUsage optionsNeitherMsg)
  else if truthyOptList options ∧ truthyOptObj option_group then
    .error (.invalidUsage optionsBothMsg)
  else do
    let p ← Text.to_text (some placeholder) true (some 150)
    .ok { action_id := action_id, options := options,
          option_group := option_group, placeholder := p,
          initial_option := initial_option, confirm := confirm }

def StaticSelect.resolve (s : StaticSelect) : Except PyErr Val := do
  let p ← resolveOptText s.placeholder
  let base := elementAttributes .STATIC_SELECT ++
    [("placeholder", p), ("action_id", Val.str s.action_id)]
  let base ← if truthyOptList s.options then do
      let os ← (s.options.getD []).mapM OptionObject.resolve
      pure (base ++ [("options", Val.list os)])
    else match s.option_group with
      | some og => do
        let ogv ← og.resolve
        pure (base ++ [("option_group", ogv)])
      | none => pure base
  let base ← match s.initial_option with
    | none => pure base
    | some (.inl str) =>
      if str = "" then pure base
      else .error (.attributeError strResolveMsg)
    | some (.inr oo) => do
      let ov ← oo.resolve
      pure (base ++ [("initial_option", ov)])
  match s.confirm with
  | some c => do
    let cv ← c.resolve
    .ok (Val.dict (base ++ [("confirm", cv)]))
  | none => .ok (Val.dict base)

/-- `CheckboxSelector` element (no coercion in its constructor). -/
structure CheckboxSelector where
  action_id : String
  options : Option (List OptionObject)
  initial_options : Option (List OptionObject)
  confirm : Option Confirm
  deriving DecidableEq, Repr

/-- `CheckboxSelector._resolve`: the `confirm` entry stores the raw
`Confirm` object, not its resolved form (source line 99). -/
def CheckboxSelector.resolve (c : CheckboxSelector) : Except PyErr Val := do
  let base := elementAttributes .CHECKBOXES ++
    [("action_id", Val.str c.action_id)]
  let base ← if truthyOptList c.options then do
      let os ← (c.options.getD []).mapM OptionObject.resolve
      pure (base ++ [("options", Val.list os)])
    else pure base
  let base ← if truthyOptList c.initial_options then do
      let os ← (c.initial_options.getD []).mapM OptionObject.resolve
      pure (base ++ [("initial_options", Val.list os)])
    else pure base
  match c.confirm with
  | some cf =>
    .ok (Val.dict (base ++
      [("confirm", Val.rawConfirm cf.title cf.text cf.confirm cf.deny)]))
  | none => .ok (Val.dict base)

/-- `MultiUsersSelect` element. -/
structure MultiUsersSelect where
  action_id : String
  initial_users : Option (List String)
  placeholder : Option Text
  max_selected_items : Option Int
  confirm : Option Confirm
  deriving DecidableEq, Repr

def MultiUsersSelect.make (action_id : String) (placeholder : String ⊕ Text)
    (initial_users : Option (List String) := none)
    (max_selected_items : Option Int := none)
    (confirm : Option Confirm := none) : Except PyErr MultiUsersSelect := do
  let p ← Text.to_text (some placeholder) true (some 150)
  .ok { action_id := action_id, initial_users := initial_users,
        placeholder := p, max_selected_items := max_selected_items,
        confirm := confirm }

/-- `MultiUsersSelect._resolve`: mirrors the source `if ... elif ...`
between `max_selected_items` and `initial_users`, and the raw (unresolved)
`confirm` entry (source lines 122-127). -/
def MultiUsersSelect.resolve (m : MultiUsersSelect) : Except PyErr Val := do
  let p ← resolveOptText m.placeholder
  let base := elementAttributes .MULTI_USERS_SELECT ++
    [("placeholder", p), ("action_id", Val.str m.action_id)]
  let base :=
    if truthyOptInt m.max_selected_items then
      base ++ [("max_selected_items", Val.int (m.max_selected_items.getD 0))]
    else if truthyOptList m.initial_users then
      base ++ [("initial_users",
        Val.list ((m.initial_users.getD []).map Val.str))]
    else base
  match m.confirm with
  | some cf =>
    .ok (Val.dict (base ++
      [("confirm", Val.rawConfirm cf.title cf.text cf.confirm cf.deny)]))
  | none => .ok (Val.dict base)

/-- A `datetime.time` value, for `TimePicker.initial_time`. -/
structure PyTime where
  hour : Nat
  minute : Nat
  deriving DecidableEq, Repr

/-- A `datetime.datetime` value, as used by `DatePicker.initial_date`. -/
structure PyDate where
  year : Nat
  month : Nat
  day : Nat
  deriving DecidableEq, Repr

def pad2 (n : Nat) : String :=
  if n < 10 then "0" ++ toString n else toString n

def pad4 (n : Nat) : String :=
  if n < 10 then "000" ++ toString n
  else if n < 100 then "00" ++ toString n
  else if n < 1000 then "0" ++ toString n
  else toString n

/-- `time.strftime("%H:%M")`. -/
def PyTime.strftimeHM (t : PyTime) : String := pad2 t.hour ++ ":" ++ pad2 t.minute

/-- `datetime.strftime("%Y-%m-%d")`. -/
def PyDate.strftimeYMD (d : PyDate) : String :=
  pad4 d.year ++ "-" ++ pad2 d.month ++ "-" ++ pad2 d.day

/-- `TimePicker`, from `elements/time_elements.py`.  Its placeholder is
coerced with `max_length=75` (source line 15). -/
structure TimePicker where
  action_id : String
  placeholder : Option Text
  initial_time : Option PyTime
  confirm : Option Confirm
  deriving DecidableEq, Repr

def TimePicker.make (action_id : String) (initial_time : Option PyTime := none)
    (placeholder : Option (String ⊕ Text) := none)
    (confirm : Option Confirm := none) : Except PyErr TimePicker := do
  let p ← Text.to_text placeholder true (some 75)
  .ok { action_id := action_id, placeholder := p,
        initial_time := initial_time, confirm := confirm }

/-- `TimePicker._resolve`: resolves the placeholder unconditionally. -/
def TimePicker.resolve (t : TimePicker) : Except PyErr Val := do
  let p ← resolveOptText t.placeholder
  let base := elementAttributes .TIME_PICKER ++
    [("placeholder", p), ("action_id", Val.str t.action_id)]
  let base := match t.initial_time with
    | some it => base ++ [("initial_time", Val.str it.strftimeHM)]
    | none => base
  match t.confirm with
  | some c => do
    let cv ← c.resolve
    .ok (Val.dict (base ++ [("confirm", cv)]))
  | none => .ok (Val.dict base)

/-- `DatePicker`, from `elements/time_elements.py`.  Its placeholder is
coerced with `max_length=75` (source line 38). -/
structure DatePicker where
  action_id : String
  placeholder : Option Text
  initial_date : Option PyDate
  confirm : Option Confirm
  deriving DecidableEq, Repr

def DatePicker.make (action_id : String) (initial_date : Option PyDate)
    (placeholder : Option (String ⊕ Text) := none)
    (confirm : Option Confirm := none) : Except PyErr DatePicker := do
  let p ← Text.to_text placeholder true (some 75)
  .ok { action_id := action_id, placeholder := p,
        initial_date := initial_date, confirm := confirm }

/-- `DatePicker._resolve`: unlike `TimePicker`, the placeholder entry is
guarded by an `if` (source line 45). -/
def DatePicker.resolve (d : DatePicker) : Except PyErr Val := do
  let base := elementAttributes .DATE_PICKER ++
    [("action_id", Val.str d.action_id)]
  let base := match d.placeholder with
    | some p => base ++ [("placeholder", p.resolve)]
    | none => base
  let base := match d.initial_date with
    | some idt => base ++ [("initial_date", Val.str idt.strftimeYMD)]
    | none => base
  match d.confirm with
  | some c => do
    let cv ← c.resolve
    .ok (Val.dict (base ++ [("confirm", cv)]))
  | none => .ok (Val.dict base)

/-- The closed family of element kinds (subclasses of `Element`, plus the
plain value classes used in element position by `ContextBlock`). -/
inductive Elem
  | text (t : Text)
  | image (i : Image)
  | button (b : Button)
  | confirm (c : Confirm)
  | textInput (t : TextInput)
  | staticSelect (s : StaticSelect)
  | checkboxes (c : CheckboxSelector)
  | multiUsers (m : MultiUsersSelect)
  | timePicker (t : TimePicker)
  | datePicker (d : DatePicker)
  deriving DecidableEq, Repr

/-- `self.type` of an element: the `ElementType` fixed by each subclass
constructor (for `Text` the stored field, which the embedding keeps to
model the cross-enum comparison in `Text._resolve`). -/
def Elem.etype : Elem → EnumV
  | .text t => t.type
  | .image _ => .eltype .IMAGE
  | .button _ => .eltype .BUTTON
  | .confirm _ => .eltype .CONFIRM
  | .textInput _ => .eltype .PLAIN_TEXT_INPUT
  | .staticSelect _ => .eltype .STATIC_SELECT
  | .checkboxes _ => .eltype .CHECKBOXES
  | .multiUsers _ => .eltype .MULTI_USERS_SELECT
  | .timePicker _ => .eltype .TIME_PICKER
  | .datePicker _ => .eltype .DATE_PICKER

def Elem.resolve : Elem → Except PyErr Val
  | .text t => .ok t.resolve
  | .image i => .ok i.resolve
  | .button b => b.resolve
  | .confirm c => c.resolve
  | .textInput t => .ok t.resolve
  | .staticSelect s => s.resolve
  | .checkboxes c => c.resolve
  | .multiUsers m => m.resolve
  | .timePicker t => t.resolve
  | .datePicker d => d.resolve

/-- Block kind tags, from `BlockType` in `blocks.py`. -/
inductive BlockType
  | INPUT
  | SECTION
  | DIVIDER
  | IMAGE
  | ACTIONS
  | CONTEXT
  | FILE
  | HEADER
  deriving DecidableEq, Repr

def BlockType.value : BlockType → String
  | .INPUT => "input"
  | .SECTION => "section"
  | .DIVIDER => "divider"
  | .IMAGE => "image"
  | .ACTIONS => "actions"
  | .CONTEXT => "context"
  | .FILE => "file"
  | .HEADER => "header"

/-- State of the unique-identifier source backing `uuid4()`. -/
abbrev Gen : Type := Nat

/-- The fresh token produced by the n-th call to `str(uuid4())`. -/
def uuidString (g : Gen) : String := "uuid-" ++ toString g

/-- `Block.__init__` identity-token logic:
`self.block_id = block_id if block_id else str(uuid4())`
(an empty string is falsy, so it too triggers generation). -/
def mkBlockId (block_id : Option String) (g : Gen) : String × Gen :=
  if truthyOptStr block_id then (block_id.getD "", g)
  else (uuidString g, g + 1)

/-- The common `Block._attributes` dict prefix. -/
def blockAttributes (t : BlockType) (block_id : String) : List (String × Val) :=
  [("type", Val.str t.value), ("block_id", Val.str block_id)]

/-- `SectionBlock`.  `fields` holds the list built by the constructor
comprehension (each entry the result of a `to_text` call). -/
structure SectionBlock where
  block_id : String
  text : Option Text
  fields : Option (List (Option Text))
  accessory : Option Elem
  deriving Repr

/-- Truthiness of a field entry of type `Union[str, Text]`. -/
def truthyStrOrText : String ⊕ Text → Bool
  | .inl s => s ≠ ""
  | .inr _ => true

def SectionBlock.make (text : Option (String ⊕ Text))
    (block_id : Option String := none)
    (fields : Option (List (String ⊕ Text)) := none)
    (accessory : Option Elem := none) (g : Gen) :
    Except PyErr SectionBlock × Gen :=
  let (bid, g') := mkBlockId block_id g
  let r : Except PyErr SectionBlock := do
    let t ← Text.to_text text false (some 2000)
    let fs ← match fields with
      | none => pure none
      | some fl =>
        if fl.isEmpty then pure none
        else do
          let coerced ← (fl.filter truthyStrOrText).mapM
            (fun f => Text.to_text (some f) false (some 2000))
          pure (some coerced)
    .ok { block_id := bid, text := t, fields := fs, accessory := accessory }
  (r, g')

/-- Truthiness of the stored `fields` attribute (`None` or `[]` falsy). -/
def truthyFields : Option (List (Option Text)) → Bool
  | none => false
  | some l => !l.isEmpty

def SectionBlock.resolve (s : SectionBlock) : Except PyErr Val := do
  let base := blockAttributes .SECTION s.block_id
  let base := match s.text with
    | some t => base ++ [("text", t.resolve)]
    | none => base
  let base ← if truthyFields s.fields then do
      let fs ← (s.fields.getD []).mapM resolveOptText
      pure (base ++ [("fields", Val.list fs)])
    else pure base
  match s.accessory with
  | some a => do
    let av ← a.resolve
    .ok (Val.dict (base ++ [("accessory", av)]))
  | none => .ok (Val.dict base)

/-- `DividerBlock`. -/
structure DividerBlock where
  block_id : String
  deriving DecidableEq, Repr

def DividerBlock.make (block_id : Option String := none) (g : Gen) :
    Except PyErr DividerBlock × Gen :=
  let (bid, g') := mkBlockId block_id g
  (.ok { block_id := bid }, g')

def DividerBlock.resolve (d : DividerBlock) : Except PyErr Val :=
  .ok (Val.dict (blockAttributes .DIVIDER d.block_id))

/-- `ImageBlock`.  The constructor always ends up storing a `Text` title
(markdown titles are re-tagged plain, a falsy title becomes `" "`). -/
structure ImageBlock where
  block_id : String
  image_url : String
  alt_text : String
  title : Text
  deriving DecidableEq, Repr

def ImageBlock.make (image_url : String) (alt_text : String := "")
    (title : Option (String ⊕ Text) := none)
    (block_id : Option String := none) (g : Gen) :
    Except PyErr ImageBlock × Gen :=
  let (bid, g') := mkBlockId block_id g
  let t : Text := match title with
    | some (.inr tx) =>
      if tx.text_type = .MARKDOWN then
        Text.init tx.text .PLAINTEXT tx.emoji tx.verbatim
      else tx
    | some (.inl s) =>
      if s ≠ "" then Text.make s .PLAINTEXT
      else Text.make " " .PLAINTEXT
    | none => Text.make " " .PLAINTEXT
  (.ok { block_id := bid, image_url := image_url, alt_text := alt_text,
         title := t }, g')

def ImageBlock.resolve (i : ImageBlock) : Except PyErr Val :=
  .ok (Val.dict (blockAttributes .IMAGE i.block_id ++
    [("image_url", Val.str i.image_url), ("alt_text", Val.str i.alt_text),
     ("title", i.title.resolve)]))

/-- `ActionsBlock` (modelling the well-typed path where a list of elements
is supplied). -/
structure ActionsBlock where
  block_id : String
  elements : List Elem
  deriving Repr

def ActionsBlock.make (elements : List Elem)
    (block_id : Option String := none) (g : Gen) :
    Except PyErr ActionsBlock × Gen :=
  let (bid, g') := mkBlockId block_id g
  (.ok { block_id := bid, elements := elements }, g')

def ActionsBlock.resolve (a : ActionsBlock) : Except PyErr Val := do
  let es ← a.elements.mapM Elem.resolve
  .ok (Val.dict (blockAttributes .ACTIONS a.block_id ++
    [("elements", Val.list es)]))

def contextKindMsg : String :=
  "Context blocks can only hold image and text elements"

def contextCountMsg : String :=
  "Context blocks can hold a maximum of ten elements"

/-- Whether an element passes the `ContextBlock` kind check
(`element.type == ElementType.TEXT or element.type == ElementType.IMAGE`). -/
def contextAllowed (e : Elem) : Bool :=
  e.etype = EnumV.eltype .TEXT ∨ e.etype = EnumV.eltype .IMAGE

/-- The `ContextBlock.__init__` element loop: keeps allowed elements,
raises at the first disallowed one. -/
def contextFilter : List Elem → Except PyErr (List Elem)
  | [] => .ok []
  | e :: es =>
    if contextAllowed e then do
      let rest ← contextFilter es
      .ok (e :: rest)
    else .error (.invalidUsage contextKindMsg)

/-- `ContextBlock`. -/
structure ContextBlock where
  block_id : String
  elements : List Elem
  deriving Repr

/-- `ContextBlock.__init__`: `super().__init__` (token generation) runs
first, then the kind loop, then the ten-element cap. -/
def ContextBlock.make (elements : List Elem)
    (block_id : Option String := none) (g : Gen) :
    Except PyErr ContextBlock × Gen :=
  let (bid, g') := mkBlockId block_id g
  let r : Except PyErr ContextBlock := do
    let kept ← contextFilter elements
    if kept.length > 10 then .error (.invalidUsage contextCountMsg)
    else .ok { block_id := bid, elements := kept }
  (r, g')

def ContextBlock.resolve (c : ContextBlock) : Except PyErr Val := do
  let es ← c.elements.mapM Elem.resolve
  .ok (Val.dict (blockAttributes .CONTEXT c.block_id ++
    [("elements", Val.list es)]))

/-- `FileBlock`. -/
structure FileBlock where
  block_id : String
  external_id : String
  source : String
  deriving DecidableEq, Repr

def FileBlock.make (external_id source : String) (block_id : Option String)
    (g : Gen) : Except PyErr FileBlock × Gen :=
  let (bid, g') := mkBlockId block_id g
  (.ok { block_id := bid, external_id := external_id, source := source }, g')

def FileBlock.resolve (f : FileBlock) : Except PyErr Val :=
  .ok (Val.dict (blockAttributes .FILE f.block_id ++
    [("external_id", Val.str f.external_id), ("source", Val.str f.source)]))

/-- `HeaderBlock` (no coercion: a raw string becomes a plain `Text` with
no length check). -/
structure HeaderBlock where
  block_id : String
  text : Text
  deriving DecidableEq, Repr

def HeaderBlock.make (text : String ⊕ Text) (block_id : Option String := none)
    (g : Gen) : Except PyErr HeaderBlock × Gen :=
  let (bid, g') := mkBlockId block_id g
  let t : Text := match text with
    | .inr tx => tx
    | .inl s => Text.make s .PLAINTEXT false false
  (.ok { block_id := bid, text := t }, g')

def HeaderBlock.resolve (h : HeaderBlock) : Except PyErr Val :=
  .ok (Val.dict (blockAttributes .HEADER h.block_id ++
    [("text", h.text.resolve)]))

/-- `InputBlock`. -/
structure InputBlock where
  block_id : String
  label : Option Text
  element : Elem
  dispatch_action : Bool
  optional : Bool
  hint : Option Text
  deriving Repr

def InputBlock.make (label : String ⊕ Text) (element : Elem)
    (dispatch_action : Bool := false)
    (hint : Option (String ⊕ Text) := none) (optional : Bool := false)
    (block_id : Option String := none) (g : Gen) :
    Except PyErr InputBlock × Gen :=
  let (bid, g') := mkBlockId block_id g
  let r : Except PyErr InputBlock := do
    let l ← Text.to_text (some label) true (some 2000)
    let h ← Text.to_text hint true (some 2000)
    .ok { block_id := bid, label := l, element := element,
          dispatch_action := dispatch_action, optional := optional, hint := h }
  (r, g')

def InputBlock.resolve (i : InputBlock) : Except PyErr Val := do
  let l ← resolveOptText i.label
  let ev ← i.element.resolve
  let base := blockAttributes .INPUT i.block_id ++
    [("label", l), ("element", ev),
     ("dispatch_action", Val.bool i.dispatch_action),
     ("optional", Val.bool i.optional)]
  match i.hint with
  | some h => .ok (Val.dict (base ++ [("hint", h.resolve)]))
  | none => .ok (Val.dict base)

/-- The closed family of block kinds (subclasses of `Block`). -/
inductive Blk
  | section (b : SectionBlock)
  | divider (b : DividerBlock)
  | image (b : ImageBlock)
  | actions (b : ActionsBlock)
  | context (b : ContextBlock)
  | file (b : FileBlock)
  | header (b : HeaderBlock)
  | input (b : InputBlock)
  deriving Repr

/-- `isinstance(x, InputBlock)`. -/
def Blk.isInputBlock : Blk → Bool
  | .input _ => true
  | _ => false

/-- `isinstance(x, int)` for a value drawn from the `Block` family: no
block instance is a Python `int`. -/
def Blk.isInt : Blk → Bool := fun _ => false

def Blk.resolve : Blk → Except PyErr Val
  | .section b => b.resolve
  | .divider b => b.resolve
  | .image b => b.resolve
  | .actions b => b.resolve
  | .context b => b.resolve
  | .file b => b.resolve
  | .header b => b.resolve
  | .input b => b.resolve

/-- `Block._resolve` with the identifier source threaded through: no
`_resolve` body in `blocks.py` calls `uuid4`, so the state passes through
each case untouched. -/
def Blk.resolveM (b : Blk) (g : Gen) : Except PyErr Val × Gen :=
  (b.resolve, g)

/-- View kind tags, from `SlackViewType` in `view/base_view.py`. -/
inductive SlackViewType
  | HOME
  | MODAL
  deriving DecidableEq, Repr

def SlackViewType.value : SlackViewType → String
  | .HOME => "home"
  | .MODAL => "modal"

/-- `json.dumps` of the caller-supplied `private_metadata` mapping,
modelled structurally for a flat string-to-string dict. -/
def dumpsDict : List (String × String) → String
  | entries =>
    let inner := String.intercalate ", "
      (entries.map (fun kv =>
        "\"" ++ kv.1 ++ "\": \"" ++ kv.2 ++ "\""))
    "\x7b" ++ inner ++ "\x7d"

/-- Truthiness of the `private_metadata` dict (`None` or empty falsy). -/
def truthyMeta : Option (List (String × String)) → Bool
  | none => false
  | some l => !l.isEmpty

/-- `[block._resolve() for block in self.blocks]` with the identifier
source threaded through each per-block resolution. -/
def resolveBlocksM : List Blk → Gen → Except PyErr (List Val) × Gen
  | [], g => (.ok [], g)
  | b :: bs, g =>
    let (r, g₁) := b.resolveM g
    match r with
    | .error e => (.error e, g₁)
    | .ok v =>
      let (rs, g₂) := resolveBlocksM bs g₁
      match rs with
      | .error e => (.error e, g₂)
      | .ok vs => (.ok (v :: vs), g₂)

/-- `BaseSlackView._attributes`, from `view/base_view.py`. -/
def baseViewAttributes (type : SlackViewType) (blocks : List Blk)
    (external_id callback_id : Option String)
    (private_metadata : Option (List (String × String))) (g : Gen) :
    Except PyErr (List (String × Val)) × Gen :=
  let (r, g₁) := resolveBlocksM blocks g
  match r with
  | .error e => (.error e, g₁)
  | .ok bs =>
    let attrs := [("type", Val.str type.value), ("blocks", Val.list bs)]
    let attrs := if truthyOptStr external_id then
      attrs ++ [("external_id", Val.str (external_id.getD ""))] else attrs
    let attrs := if truthyOptStr callback_id then
      attrs ++ [("callback_id", Val.str (callback_id.getD ""))] else attrs
    let attrs := if truthyMeta private_metadata then
      attrs ++ [("private_metadata",
        Val.str (dumpsDict (private_metadata.getD [])))] else attrs
    (.ok attrs, g₁)

/-- `HomeSlackView`, from `view/home_view.py`. -/
structure HomeSlackView where
  type : SlackViewType
  blocks : List Blk
  external_id : Option String
  callback_id : Option String
  private_metadata : Option (List (String × String))
  deriving Repr

def HomeSlackView.make (blocks : Option (List Blk) := none)
    (private_metadata : Option (List (String × String)) := none)
    (callback_id external_id : Option String := none) : HomeSlackView :=
  { type := .HOME, blocks := blocks.getD [],
    external_id := external_id, callback_id := callback_id,
    private_metadata := private_metadata }

def HomeSlackView.resolveM (v : HomeSlackView) (g : Gen) :
    Except PyErr Val × Gen :=
  let (r, g₁) := baseViewAttributes v.type v.blocks v.external_id
    v.callback_id v.private_metadata g
  match r with
  | .error e => (.error e, g₁)
  | .ok attrs => (.ok (Val.dict attrs), g₁)

def submitNeededMsg : String :=
  "You have to send Submit text if you have at least one InputBlock." ++
  " Read: https://api.slack.com/reference/surfaces/views"

/-- `ModalSlackView`, from `view/modal_view.py`.  `title`, `close` and
`submit` are `Option Text` because `to_text` returns `None` on empty
input. -/
structure ModalSlackView where
  type : SlackViewType
  blocks : List Blk
  external_id : Option String
  callback_id : Option String
  private_metadata : Option (List (String × String))
  title : Option Text
  close : Option Text
  submit : Option Text
  clear_on_close : Option Bool
  notify_on_close : Option Bool
  deriving Repr

def ModalSlackView.make (title : String ⊕ Text)
    (close submit : Option (String ⊕ Text) := none)
    (blocks : Option (List Blk) := none)
    (private_metadata : Option (List (String × String)) := none)
    (clear_on_close notify_on_close : Option Bool := none)
    (callback_id external_id : Option String := none) :
    Except PyErr ModalSlackView := do
  let t ← Text.to_text (some title) true (some 24)
  let c ← Text.to_text close true (some 24)
  let s ← Text.to_text submit true (some 24)
  .ok { type := .MODAL, blocks := blocks.getD [],
        external_id := external_id, callback_id := callback_id,
        private_metadata := private_metadata, title := t, close := c,
        submit := s, clear_on_close := clear_on_close,
        notify_on_close := notify_on_close }

/-- `ModalSlackView._resolve`: base attributes (resolving every block)
first, then the title, then the submit check
`any(isinstance(x, (int, InputBlock)) for x in self.blocks)`. -/
def ModalSlackView.resolveM (m : ModalSlackView) (g : Gen) :
    Except PyErr Val × Gen :=
  let (r, g₁) := baseViewAttributes m.type m.blocks m.external_id
    m.callback_id m.private_metadata g
  match r with
  | .error e => (.error e, g₁)
  | .ok attrs =>
    match m.title with
    | none => (.error (.attributeError resolveNoneMsg), g₁)
    | some t =>
      let view := attrs ++ [("title", t.resolve)]
      match m.submit with
      | some s =>
        let view := view ++ [("submit", s.resolve)]
        let view := match m.close with
          | some c => view ++ [("close", c.resolve)]
          | none => view
        let view := if truthyOptBool m.clear_on_close then
          view ++ [("clear_on_close", Val.bool (m.clear_on_close.getD false))]
          else view
        let view := if truthyOptBool m.notify_on_close then
          view ++ [("notify_on_close", Val.bool (m.notify_on_close.getD false))]
          else view
        (.ok (Val.dict view), g₁)
      | none =>
        if m.blocks.any (fun x => x.isInt || x.isInputBlock) then
          (.error (.invalidUsage submitNeededMsg), g₁)
        else
          let view := match m.close with
            | some c => view ++ [("close", c.resolve)]
            | none => view
          let view := if truthyOptBool m.clear_on_close then
            view ++ [("clear_on_close", Val.bool (m.clear_on_close.getD false))]
            else view
          let view := if truthyOptBool m.notify_on_close then
            view ++ [("notify_on_close",
              Val.bool (m.notify_on_close.getD false))] else view
          (.ok (Val.dict view), g₁)

/-- The closed family of view kinds. -/
inductive View
  | home (v : HomeSlackView)
  | modal (v : ModalSlackView)
  deriving Repr

def View.resolveM : View → Gen → Except PyErr Val × Gen
  | .home v, g => v.resolveM g
  | .modal v, g => v.resolveM g

/-- `ModalResponseAction`, from `view/modal_response.py`. -/
inductive ModalResponseAction
  | ERROR
  | CLOSE
  | UPDATE
  deriving DecidableEq, Repr

def ModalResponseAction.value : ModalResponseAction → String
  | .ERROR => "errors"
  | .CLOSE => "clear"
  | .UPDATE => "update"

/-- The closed family of modal-response kinds, from
`view/modal_response.py`. -/
inductive ModalResponse
  | empty
  | close
  | error (errors : List (String × String))
  | update (modal : ModalSlackView)

/-- The `response_action` stored by each subclass constructor
(`EmptyModalResponse` stores `ERROR`, per its source comment the value is
never used). -/
def ModalResponse.responseAction : ModalResponse → ModalResponseAction
  | .empty => .ERROR
  | .close => .CLOSE
  | .error _ => .ERROR
  | .update _ => .UPDATE

/-- `BaseModalResponse._attributes`. -/
def modalResponseAttributes (r : ModalResponse) : List (String × Val) :=
  [("response_action", Val.str r.responseAction.value)]

/-- `_resolve` of each modal-response subclass.  `EmptyModalResponse`
returns a fresh empty dict; `UpdateModalResponse` resolves the wrapped
modal view. -/
def ModalResponse.resolveM : ModalResponse → Gen → Except PyErr Val × Gen
  | .empty, g => (.ok (Val.dict []), g)
  | .close, g => (.ok (Val.dict (modalResponseAttributes .close)), g)
  | .error errs, g =>
    (.ok (Val.dict (modalResponseAttributes (.error errs) ++
      [("errors", Val.dict (errs.map (fun kv => (kv.1, Val.str kv.2))))])), g)
  | .update m, g =>
    let (r, g₁) := m.resolveM g
    match r with
    | .error e => (.error e, g₁)
    | .ok v =>
      (.ok (Val.dict (modalResponseAttributes (.update m) ++
        [("view", v)])), g₁)

/-- Any node of the object model, for properties uniform over the whole
tree. -/
inductive Node
  | elem (e : Elem)
  | block (b : Blk)
  | view (v : View)

/-- Resolution of any node, with the identifier source threaded. -/
def Node.resolveM : Node → Gen → Except PyErr Val × Gen
  | .elem e, g => (e.resolve, g)
  | .block b, g => b.resolveM g
  | .view v, g => v.resolveM g

/-- Whether an embedded call returned normally. -/
def isOkB {α : Type} : Except PyErr α → Bool
  | .ok _ => true
  | .error _ => false

/-- Key membership in the dict of a successful resolution. -/
def exceptHasKey : Except PyErr Val → String → Bool
  | .ok v, k => v.hasKey k
  | .error _, _ => false

theorem resolveBlocksM_snd (bs : List Blk) : ∀ g : Gen, (resolveBlocksM bs g).2 = g := by
  induction bs with
  | nil => intro g; rfl
  | cons b bs ih =>
    intro g
    simp only [resolveBlocksM, Blk.resolveM]
    cases b.resolve with
    | error e => rfl
    | ok v =>
      have h := ih g
      cases hr : resolveBlocksM bs g with
      | mk rs g₂ =>
        rw [hr] at h
        cases rs with
        | error e => simpa using h
        | ok vs => simpa using h

theorem resolveBlocksM_fst (bs : List Blk) :
    ∀ g g₀ : Gen, (resolveBlocksM bs g).1 = (resolveBlocksM bs g₀).1 := by
  induction bs with
  | nil => intro g g₀; rfl
  | cons b bs ih =>
    intro g g₀
    simp only [resolveBlocksM, Blk.resolveM]
    cases b.resolve with
    | error e => rfl
    | ok v =>
      have h := ih g g₀
      cases hr : resolveBlocksM bs g with
      | mk rs g₂ =>
        cases hr₀ : resolveBlocksM bs g₀ with
        | mk rs₀ g₃ =>
          rw [hr, hr₀] at h
          simp only at h
          subst h
          cases rs <;> rfl

theorem baseViewAttributes_snd (t : SlackViewType) (bs : List Blk)
    (e c : Option String) (p : Option (List (String × String))) (g : Gen) :
    (baseViewAttributes t bs e c p g).2 = g := by
  simp only [baseViewAttributes]
  have h := resolveBlocksM_snd bs g
  cases hr : resolveBlocksM bs g with
  | mk r g₁ =>
    rw [hr] at h
    cases r with
    | error er => simpa using h
    | ok vs => simpa using h

theorem baseViewAttributes_fst (t : SlackViewType) (bs : List Blk)
    (e c : Option String) (p : Option (List (String × String))) (g g₀ : Gen) :
    (baseViewAttributes t bs e c p g).1 = (baseViewAttributes t bs e c p g₀).1 := by
  simp only [baseViewAttributes]
  have h := resolveBlocksM_fst bs g g₀
  cases hr : resolveBlocksM bs g with
  | mk r g₁ =>
    cases hr₀ : resolveBlocksM bs g₀ with
    | mk r₀ g₂ =>
      rw [hr, hr₀] at h
      simp only at h
      subst h
      cases r <;> rfl

theorem homeView_resolveM_snd (v : HomeSlackView) (g : Gen) :
    (v.resolveM g).2 = g := by
  simp only [HomeSlackView.resolveM]
  have h := baseViewAttributes_snd v.type v.blocks v.external_id v.callback_id
    v.private_metadata g
  cases hr : baseViewAttributes v.type v.blocks v.external_id v.callback_id
      v.private_metadata g with
  | mk r g₁ =>
    rw [hr] at h
    cases r with
    | error er => simpa using h
    | ok vs => simpa using h

theorem homeView_resolveM_fst (v : HomeSlackView) (g g₀ : Gen) :
    (v.resolveM g).1 = (v.resolveM g₀).1 := by
  simp only [HomeSlackView.resolveM]
  have h := baseViewAttributes_fst v.type v.blocks v.external_id v.callback_id
    v.private_metadata g g₀
  cases hr : baseViewAttributes v.type v.blocks v.external_id v.callback_id
      v.private_metadata g with
  | mk r g₁ =>
    cases hr₀ : baseViewAttributes v.type v.blocks v.external_id v.callback_id
        v.private_metadata g₀ with
    | mk r₀ g₂ =>
      rw [hr, hr₀] at h
      simp only at h
      subst h
      cases r <;> rfl

theorem modalView_resolveM_snd (m : ModalSlackView) (g : Gen) :
    (m.resolveM g).2 = g := by
  simp only [ModalSlackView.resolveM]
  have h := baseViewAttributes_snd m.type m.blocks m.external_id m.callback_id
    m.private_metadata g
  cases hr : baseViewAttributes m.type m.blocks m.external_id m.callback_id
      m.private_metadata g with
  | mk r g₁ =>
    rw [hr] at h
    simp only at h
    subst h
    cases r with
    | error er => rfl
    | ok attrs =>
      cases m.title with
      | none => rfl
      | some t =>
        cases m.submit with
        | some s => rfl
        | none =>
          by_cases hi : m.blocks.any (fun x => x.isInt || x.isInputBlock) = true
          · simp [hi]
          · simp [hi]

theorem modalView_resolveM_fst (m : ModalSlackView) (g g₀ : Gen) :
    (m.resolveM g).1 = (m.resolveM g₀).1 := by
  simp only [ModalSlackView.resolveM]
  have h := baseViewAttributes_fst m.type m.blocks m.external_id m.callback_id
    m.private_metadata g g₀
  cases hr : baseViewAttributes m.type m.blocks m.external_id m.callback_id
      m.private_metadata g with
  | mk r g₁ =>
    cases hr₀ : baseViewAttributes m.type m.blocks m.external_id m.callback_id
        m.private_metadata g₀ with
    | mk r₀ g₂ =>
      rw [hr, hr₀] at h
      simp only at h
      subst h
      cases r with
      | error er => rfl
      | ok attrs =>
        cases m.title with
        | none => rfl
        | some t =>
          cases m.submit with
          | some s => rfl
          | none =>
            by_cases hi : m.blocks.any (fun x => x.isInt || x.isInputBlock) = true
            · simp [hi]
            · simp [hi]

theorem view_resolveM_snd (v : View) (g : Gen) : (v.resolveM g).2 = g := by
  cases v with
  | home h => exact homeView_resolveM_snd h g
  | modal m => exact modalView_resolveM_snd m g

theorem view_resolveM_fst (v : View) (g g₀ : Gen) :
    (v.resolveM g).1 = (v.resolveM g₀).1 := by
  cases v with
  | home h => exact homeView_resolveM_fst h g g₀
  | modal m => exact modalView_resolveM_fst m g g₀

theorem node_resolveM_snd (n : Node) (g : Gen) : (n.resolveM g).2 = g := by
  cases n with
  | elem e => rfl
  | block b => rfl
  | view v => exact view_resolveM_snd v g

theorem node_resolveM_fst (n : Node) (g g₀ : Gen) :
    (n.resolveM g).1 = (n.resolveM g₀).1 := by
  cases n with
  | elem e => rfl
  | block b => rfl
  | view v => exact view_resolveM_fst v g g₀

/-- C1: For every node of the object model (Block, Element, or View),
resolution is deterministic and idempotent: it leaves the identity-token
generator untouched, its output does not depend on the generator state,
and resolving again right after a first resolution yields the same output;
identity-token generation is a construction-time effect (`Block.__init__`
advances the generator whenever no `block_id` is supplied). -/
theorem c1_resolution_deterministic_idempotent (n : Node) (g g₀ : Gen) :
    (n.resolveM g).2 = g
    ∧ (n.resolveM g).1 = (n.resolveM g₀).1
    ∧ (n.resolveM ((n.resolveM g).2)).1 = (n.resolveM g).1
    ∧ ∀ gc : Gen, (mkBlockId none gc).2 ≠ gc := by
  refine ⟨node_resolveM_snd n g, node_resolveM_fst n g g₀, ?_, ?_⟩
  · rw [node_resolveM_snd n g]
  · intro gc
    simp [mkBlockId, truthyOptStr]

/-- C2: The claim states that `Text.to_text` checks the content character
count of an existing `Text` input against `max_length`, failing with a
usage error only above the limit and succeeding at or below it.  The code
instead evaluates `len(text)` on the `Text` object itself, which has no
`__len__`, so any `Text` input with a truthy `max_length` raises
`TypeError` even when its content is within the limit; raw-string inputs
behave as the claim says. -/
theorem c2_to_text_text_branch_type_error :
    Text.to_text (some (Sum.inr (Text.make "ab"))) false (some 5)
      = Except.error (PyErr.typeError lenOfTextMsg)
    ∧ ("ab".length ≤ 5)
    ∧ Text.to_text (some (Sum.inl "abcde")) false (some 5)
      = Except.ok (some (Text.make "abcde"))
    ∧ Text.to_text (some (Sum.inl "abcdef")) false (some 5)
      = Except.error (PyErr.invalidUsage lengthLimitMsg) := by
  refine ⟨rfl, by decide, rfl, rfl⟩

/-- C6: The claim states that a PLAINTEXT `Text` with `emoji` enabled
resolves with an `emoji` key.  `Text._resolve` compares `self.type` (the
inherited `ElementType.TEXT`) with `TextType.PLAINTEXT`; the cross-enum
comparison is always false, so the `emoji` key is never emitted.  The
MARKDOWN `verbatim` part of the claim does hold. -/
theorem c6_emoji_key_never_emitted :
    (Text.make "hi" .PLAINTEXT true).resolve
      = Val.dict [("type", Val.str "plain_text"), ("text", Val.str "hi")]
    ∧ (Text.make "hi" .PLAINTEXT true).resolve.hasKey "emoji" = false
    ∧ (Text.make "hi" .PLAINTEXT true).emoji = some true
    ∧ (Text.make "hi" .MARKDOWN false true).resolve.hasKey "verbatim" = true
    ∧ (Text.make "hi" .PLAINTEXT true).resolve.hasKey "type" = true
    ∧ (Text.make "hi" .PLAINTEXT true).resolve.hasKey "text" = true := by
  refine ⟨rfl, rfl, rfl, rfl, rfl, rfl⟩

/-- The `MultiUsersSelect` built by
`MultiUsersSelect("a", "p", initial_users=["U1"], max_selected_items=2)`. -/
def musBoth : MultiUsersSelect :=
  { action_id := "a", initial_users := some ["U1"],
    placeholder := some (Text.make "p" .PLAINTEXT),
    max_selected_items := some 2, confirm := none }

/-- C8: The claim states every supplied optional field appears in the
output; in particular a `MultiUsersSelect` with both `max_selected_items`
and `initial_users` supplied emits both.  The source joins the two with
`elif`, so when both are supplied only `max_selected_items` is emitted and
`initial_users` is dropped. -/
theorem c8_multi_users_elif_drops_initial_users :
    MultiUsersSelect.make "a" (Sum.inl "p") (some ["U1"]) (some 2) none
      = Except.ok musBoth
    ∧ exceptHasKey musBoth.resolve "max_selected_items" = true
    ∧ exceptHasKey musBoth.resolve "initial_users" = false := by
  refine ⟨rfl, rfl, rfl⟩

/-- C9 counterexample: `EmptyModalResponse()._resolve()` returns the empty
mapping, which does not contain the `response_action` key the claim
requires of every variant. -/
theorem c9_empty_response_lacks_response_action :
    (ModalResponse.resolveM .empty 0).1 = Except.ok (Val.dict [])
    ∧ exceptHasKey (ModalResponse.resolveM .empty 0).1 "response_action"
        = false := by
  refine ⟨rfl, rfl⟩

/-- C9 amended: Close, Error, and Update resolve to `response_action` plus
the variant payload (nothing additional, the errors mapping, the nested
resolved view respectively); Empty resolves to the empty mapping with no
`response_action` key. -/
theorem c9_modal_response_payloads (r : ModalResponse) (g : Gen) :
    (r = .empty → (r.resolveM g).1 = Except.ok (Val.dict []))
    ∧ (r = .close → (r.resolveM g).1
        = Except.ok (Val.dict [("response_action", Val.str "clear")]))
    ∧ (∀ errs, r = .error errs → (r.resolveM g).1
        = Except.ok (Val.dict
            [("response_action", Val.str "errors"),
             ("errors",
              Val.dict (errs.map (fun kv => (kv.1, Val.str kv.2))))]))
    ∧ (∀ m v, r = .update m → (m.resolveM g).1 = Except.ok v →
        (r.resolveM g).1
          = Except.ok (Val.dict
              [("response_action", Val.str "update"), ("view", v)])) := by
  refine ⟨?_, ?_, ?_, ?_⟩
  · rintro rfl; rfl
  · rintro rfl; rfl
  · rintro errs rfl; rfl
  · rintro m v rfl hm
    simp only [ModalResponse.resolveM]
    cases hr : m.resolveM g with
    | mk rv g₁ =>
      rw [hr] at hm
      simp only at hm
      subst hm
      rfl

/-- A modal with title `"T"` and no blocks, as built by
`ModalSlackView(title="T")`. -/
def modalTX : ModalSlackView :=
  { type := .MODAL, blocks := [], external_id := none, callback_id := none,
    private_metadata := none, title := some (Text.make "T" .PLAINTEXT),
    close := none, submit := none, clear_on_close := none,
    notify_on_close := none }

/-- C9 witness. -/
theorem c9_modal_response_payloads_witness :
    (ModalResponse.resolveM .empty 0).1 = Except.ok (Val.dict [])
    ∧ (ModalResponse.resolveM .close 0).1
        = Except.ok (Val.dict [("response_action", Val.str "clear")])
    ∧ (ModalResponse.resolveM (.error [("b1", "bad")]) 0).1
        = Except.ok (Val.dict
            [("response_action", Val.str "errors"),
             ("errors", Val.dict [("b1", Val.str "bad")])])
    ∧ (ModalResponse.resolveM (.update modalTX) 0).1
        = Except.ok (Val.dict
            [("response_action", Val.str "update"),
             ("view",
              Val.dict [("type", Val.str "modal"),
                        ("blocks", Val.list []),
                        ("title",
                         Val.dict [("type", Val.str "plain_text"),
                                   ("text", Val.str "T")])])]) := by
  refine ⟨(c9_modal_response_payloads .empty 0).1 rfl,
    (c9_modal_response_payloads .close 0).2.1 rfl,
    (c9_modal_response_payloads (.error [("b1", "bad")]) 0).2.2.1
      [("b1", "bad")] rfl,
    (c9_modal_response_payloads (.update modalTX) 0).2.2.2 modalTX _ rfl rfl⟩

theorem to_text_inl_ok (p : String) (fp : Bool) (n : Nat)
    (hlen : p.length ≤ n) :
    ∃ t, Text.to_text (some (Sum.inl p)) fp (some n) = Except.ok t := by
  by_cases hpe : p = ""
  · exact ⟨none, by simp [Text.to_text, hpe]⟩
  · refine ⟨some (Text.make p (if fp then .PLAINTEXT else .MARKDOWN)), ?_⟩
    simp only [Text.to_text]
    rw [if_neg hpe, if_neg]
    rintro ⟨-, hgt⟩
    simp only [Option.getD] at hgt
    omega

/-- C3: `StaticSelect` construction fails with a usage error when both of
`options` / `option_group` are (truthily) supplied, fails when neither is,
and succeeds when exactly one is, provided the placeholder string is
within its own 150-character limit; the checks run before any
`StaticSelect` value is produced. -/
theorem c3_static_select_options_xor (action_id ph : String)
    (options : Option (List OptionObject)) (option_group : Option OptionGroup)
    (io : Option (String ⊕ OptionObject)) (cf : Option Confirm) :
    (truthyOptList options = true → truthyOptObj option_group = true →
      StaticSelect.make action_id (Sum.inl ph) options option_group io cf
        = Except.error (PyErr.invalidUsage optionsBothMsg))
    ∧ (truthyOptList options = false → truthyOptObj option_group = false →
      StaticSelect.make action_id (Sum.inl ph) options option_group io cf
        = Except.error (PyErr.invalidUsage optionsNeitherMsg))
    ∧ (ph.length ≤ 150 → truthyOptList options ≠ truthyOptObj option_group →
      ∃ s, StaticSelect.make action_id (Sum.inl ph) options option_group io cf
        = Except.ok s) := by
  refine ⟨?_, ?_, ?_⟩
  · intro h1 h2
    simp [StaticSelect.make, h1, h2]
  · intro h1 h2
    simp [StaticSelect.make, h1, h2]
  · intro hlen hne
    obtain ⟨t, ht⟩ := to_text_inl_ok ph true 150 hlen
    have hcond1 : ¬((!truthyOptList options) = true
        ∧ (!truthyOptObj option_group) = true) := by
      rcases Bool.eq_false_or_eq_true (truthyOptList options) with h | h <;>
        simp [h] at hne ⊢
      simp [hne]
    have hcond2 : ¬(truthyOptList options = true
        ∧ truthyOptObj option_group = true) := by
      rcases Bool.eq_false_or_eq_true (truthyOptList options) with h | h <;>
        simp [h] at hne ⊢
      simp [hne]
    refine ⟨⟨action_id, options, option_group, t, io, cf⟩, ?_⟩
    simp only [StaticSelect.make]
    rw [if_neg hcond1, if_neg hcond2, ht]
    rfl

/-- An option object as built by `OptionObject("x", "v")`. -/
def ooX : OptionObject :=
  { text := some (Text.make "x" .PLAINTEXT), value := "v",
    description := none, url := none }

/-- An option group as built by `OptionGroup("g", [ooX])`. -/
def ogX : OptionGroup :=
  { label := some (Text.make "g" .PLAINTEXT), options := [ooX] }

/-- C3 witness. -/
theorem c3_static_select_options_xor_witness :
    StaticSelect.make "a" (Sum.inl "p") (some [ooX]) (some ogX) none none
      = Except.error (PyErr.invalidUsage optionsBothMsg)
    ∧ StaticSelect.make "a" (Sum.inl "p") none none none none
      = Except.error (PyErr.invalidUsage optionsNeitherMsg)
    ∧ ∃ s, StaticSelect.make "a" (Sum.inl "p") (some [ooX]) none none none
      = Except.ok s := by
  refine ⟨(c3_static_select_options_xor "a" "p" (some [ooX]) (some ogX)
      none none).1 (by decide) (by decide),
    (c3_static_select_options_xor "a" "p" none none none none).2.1
      (by decide) (by decide),
    (c3_static_select_options_xor "a" "p" (some [ooX]) none none none).2.2
      (by decide) (by decide)⟩

theorem contextFilter_all_ok (es : List Elem)
    (h : ∀ e ∈ es, contextAllowed e = true) : contextFilter es = .ok es := by
  induction es with
  | nil => rfl
  | cons e es ih =>
    have he := h e (List.mem_cons_self e es)
    have hrest := ih (fun x hx => h x (List.mem_cons_of_mem e hx))
    simp [contextFilter, he, hrest, Except.bind, Bind.bind]

theorem contextFilter_bad (es : List Elem)
    (h : ∃ e ∈ es, contextAllowed e = false) :
    contextFilter es = .error (.invalidUsage contextKindMsg) := by
  induction es with
  | nil => simp at h
  | cons e es ih =>
    by_cases he : contextAllowed e = true
    · have : ∃ x ∈ es, contextAllowed x = false := by
        rcases h with ⟨x, hx, hxf⟩
        rcases List.mem_cons.mp hx with rfl | hxs
        · rw [he] at hxf; cases hxf
        · exact ⟨x, hxs, hxf⟩
      simp [contextFilter, he, ih this, Except.bind, Bind.bind]
    · simp [contextFilter, he]

/-- C4: `ContextBlock` construction fails with a usage error when given
eleven Text/Image elements, succeeds with ten, and fails whenever any
element is of a kind other than Text or Image, regardless of count; both
checks happen inside the constructor, before any `ContextBlock` value is
produced. -/
theorem c4_context_block_validation (es : List Elem) (bid : Option String)
    (g : Gen) :
    ((∀ e ∈ es, contextAllowed e = true) → es.length = 11 →
      (ContextBlock.make es bid g).1
        = Except.error (PyErr.invalidUsage contextCountMsg))
    ∧ ((∀ e ∈ es, contextAllowed e = true) → es.length = 10 →
      ∃ cb, (ContextBlock.make es bid g).1 = Except.ok cb)
    ∧ ((∃ e ∈ es, contextAllowed e = false) →
      (ContextBlock.make es bid g).1
        = Except.error (PyErr.invalidUsage contextKindMsg)) := by
  refine ⟨?_, ?_, ?_⟩
  · intro hall hlen
    simp [ContextBlock.make, contextFilter_all_ok es hall, hlen,
      Except.bind, Bind.bind]
  · intro hall hlen
    rcases hmk : mkBlockId bid g with ⟨bidv, gv⟩
    refine ⟨⟨bidv, es⟩, ?_⟩
    simp [ContextBlock.make, hmk, contextFilter_all_ok es hall, hlen,
      Except.bind, Bind.bind]
  · intro hbad
    simp [ContextBlock.make, contextFilter_bad es hbad,
      Except.bind, Bind.bind]

/-- An image element, `Image("u", "t")`. -/
def imgX : Image := { image_url := "u", alt_text := "t" }

/-- A time-picker element, `TimePicker("a")`: of a kind `ContextBlock`
does not accept. -/
def tpX : TimePicker :=
  { action_id := "a", placeholder := none, initial_time := none,
    confirm := none }

/-- C4 witness. -/
theorem c4_context_block_validation_witness :
    (ContextBlock.make (List.replicate 11 (Elem.image imgX)) none 0).1
      = Except.error (PyErr.invalidUsage contextCountMsg)
    ∧ (∃ cb, (ContextBlock.make (List.replicate 10 (Elem.image imgX))
        none 0).1 = Except.ok cb)
    ∧ (ContextBlock.make [Elem.timePicker tpX] none 0).1
      = Except.error (PyErr.invalidUsage contextKindMsg) := by
  refine ⟨(c4_context_block_validation (List.replicate 11 (Elem.image imgX))
      none 0).1 (by decide) (by decide),
    (c4_context_block_validation (List.replicate 10 (Elem.image imgX))
      none 0).2.1 (by decide) (by decide),
    (c4_context_block_validation [Elem.timePicker tpX] none 0).2.2
      ⟨Elem.timePicker tpX, by simp, by decide⟩⟩

theorem baseViewAttributes_ok_of_blocks (t : SlackViewType) (bs : List Blk)
    (e c : Option String) (p : Option (List (String × String))) (g : Gen)
    (vs : List Val) (hvs : (resolveBlocksM bs g).1 = Except.ok vs) :
    ∃ attrs, (baseViewAttributes t bs e c p g).1 = Except.ok attrs := by
  simp only [baseViewAttributes]
  rcases hrb : resolveBlocksM bs g with ⟨r, g₁⟩
  rw [hrb] at hvs
  simp only at hvs
  subst hvs
  exact ⟨_, rfl⟩

theorem blk_any_int_irrelevant (bs : List Blk) :
    bs.any (fun x => x.isInt || x.isInputBlock) = bs.any Blk.isInputBlock := by
  induction bs with
  | nil => rfl
  | cons b bs ih => simp [List.any_cons, ih, Blk.isInt]

/-- The text input `TextInput("aid")`. -/
def tiX : TextInput :=
  { action_id := "aid", placeholder := none, initial_value := none,
    multiline := false, min_length := none, max_length := none,
    dispatch_config := none }

/-- The input block `InputBlock("L", TextInput("aid"))` built with the
generator at state 0. -/
def ibX : InputBlock :=
  { block_id := "uuid-0", label := some (Text.make "L" .PLAINTEXT),
    element := Elem.textInput tiX, dispatch_action := false,
    optional := false, hint := none }

/-- `ModalSlackView(title="T", blocks=[ibX])`, no submit label. -/
def modalNoSubmit : ModalSlackView :=
  { type := .MODAL, blocks := [Blk.input ibX], external_id := none,
    callback_id := none, private_metadata := none,
    title := some (Text.make "T" .PLAINTEXT), close := none,
    submit := none, clear_on_close := none, notify_on_close := none }

/-- The same modal with `submit="Go"`. -/
def modalWithSubmit : ModalSlackView :=
  { modalNoSubmit with submit := some (Text.make "Go" .PLAINTEXT) }

/-- The resolved form of `ibX`. -/
def ibVal : Val :=
  Val.dict [("type", Val.str "input"), ("block_id", Val.str "uuid-0"),
    ("label", Val.dict [("type", Val.str "plain_text"),
                        ("text", Val.str "L")]),
    ("element", Val.dict [("type", Val.str "plain_text_input"),
                          ("action_id", Val.str "aid"),
                          ("multiline", Val.bool false)]),
    ("dispatch_action", Val.bool false), ("optional", Val.bool false)]

/-- The resolved form of `modalWithSubmit`. -/
def modalWithSubmitVal : Val :=
  Val.dict [("type", Val.str "modal"), ("blocks", Val.list [ibVal]),
    ("title", Val.dict [("type", Val.str "plain_text"),
                        ("text", Val.str "T")]),
    ("submit", Val.dict [("type", Val.str "plain_text"),
                         ("text", Val.str "Go")])]

/-- C5: A modal whose blocks contain an Input block and whose submit label
is absent fails at resolution time with the submit usage error (provided
resolution reaches the check: the title is present and the blocks
themselves resolve); the membership test is determined solely by block
kind (the `int` arm of the isinstance check matches no block); such a
modal is constructed successfully - the check happens at resolution, not
construction - and supplying a submit label makes resolution succeed. -/
theorem c5_modal_submit_required (m : ModalSlackView) (g : Gen) :
    (∀ t, m.title = some t →
      (∃ vs, (resolveBlocksM m.blocks g).1 = Except.ok vs) →
      m.submit = none → m.blocks.any Blk.isInputBlock = true →
      (m.resolveM g).1 = Except.error (PyErr.invalidUsage submitNeededMsg))
    ∧ (∀ bs : List Blk,
        bs.any (fun x => x.isInt || x.isInputBlock) = bs.any Blk.isInputBlock)
    ∧ ModalSlackView.make (Sum.inl "T") none none (some [Blk.input ibX])
        none none none none none = Except.ok modalNoSubmit
    ∧ (modalWithSubmit.resolveM g).1 = Except.ok modalWithSubmitVal := by
  refine ⟨?_, blk_any_int_irrelevant, rfl, rfl⟩
  intro t ht hvs hs hi
  rcases hvs with ⟨vs, hvs⟩
  obtain ⟨attrs, hattrs⟩ := baseViewAttributes_ok_of_blocks m.type m.blocks
    m.external_id m.callback_id m.private_metadata g vs hvs
  simp only [ModalSlackView.resolveM]
  rcases hb : baseViewAttributes m.type m.blocks m.external_id m.callback_id
      m.private_metadata g with ⟨br, bg⟩
  rw [hb] at hattrs
  simp only at hattrs
  subst hattrs
  rw [ht, hs]
  have hcond : m.blocks.any (fun x => x.isInt || x.isInputBlock) = true := by
    rw [blk_any_int_irrelevant]; exact hi
  simp [hcond]

/-- C5 witness. -/
theorem c5_modal_submit_required_witness :
    (modalNoSubmit.resolveM 0).1
      = Except.error (PyErr.invalidUsage submitNeededMsg) :=
  (c5_modal_submit_required modalNoSubmit 0).1 (Text.make "T" .PLAINTEXT)
    rfl ⟨[ibVal], rfl⟩ rfl rfl

/-- A 76-character string: longer than 75, well within 150. -/
def p76 : String := String.mk (List.replicate 76 'a')

/-- C7 counterexample: the claim says every placeholder among the select,
date-picker, time-picker, and text-input elements is coerced with max
length exactly 150, so a 76-character placeholder must be accepted by all
of them; `TimePicker` and `DatePicker` coerce with max length 75 and
reject it. -/
theorem c7_picker_placeholder_75 :
    p76.length = 76
    ∧ p76.length ≤ 150
    ∧ TimePicker.make "a" none (some (Sum.inl p76)) none
      = Except.error (PyErr.invalidUsage lengthLimitMsg)
    ∧ DatePicker.make "a" none (some (Sum.inl p76)) none
      = Except.error (PyErr.invalidUsage lengthLimitMsg) := by
  refine ⟨rfl, by decide, rfl, rfl⟩

theorem to_text_inl_isOk (p : String) (fp : Bool) (n : Nat) (hn : 0 < n) :
    isOkB (Text.to_text (some (Sum.inl p)) fp (some n)) = true
      ↔ p.length ≤ n := by
  by_cases hpe : p = ""
  · subst hpe
    simp [Text.to_text, isOkB]
  · simp only [Text.to_text]
    rw [if_neg hpe]
    by_cases hl : n < p.length
    · rw [if_pos ⟨by simp [truthyOptNat]; omega,
        by simpa [Option.getD] using hl⟩]
      simp [isOkB]
      omega
    · rw [if_neg (by rintro ⟨-, hgt⟩; simp [Option.getD] at hgt; omega)]
      simp [isOkB]
      omega

/-- C7 amended: placeholders for `StaticSelect`, `MultiUsersSelect` and
`TextInput` are coerced with max length 150 (accepted exactly when the
string is at most 150 characters); `TimePicker` and `DatePicker`
placeholders are coerced with max length 75 (accepted exactly when at
most 75 characters). -/
theorem c7_placeholder_limits (p : String) :
    (isOkB (TimePicker.make "a" none (some (Sum.inl p)) none) = true
      ↔ p.length ≤ 75)
    ∧ (isOkB (DatePicker.make "a" none (some (Sum.inl p)) none) = true
      ↔ p.length ≤ 75)
    ∧ (isOkB (StaticSelect.make "a" (Sum.inl p) (some [ooX]) none none none)
        = true ↔ p.length ≤ 150)
    ∧ (isOkB (MultiUsersSelect.make "a" (Sum.inl p) none none none) = true
      ↔ p.length ≤ 150)
    ∧ (isOkB (TextInput.make "a" (some (Sum.inl p)) none false none none none)
        = true ↔ p.length ≤ 150) := by
  refine ⟨?_, ?_, ?_, ?_, ?_⟩
  · rw [← to_text_inl_isOk p true 75 (by omega)]
    cases h : Text.to_text (some (Sum.inl p)) true (some 75) with
    | error e => simp [TimePicker.make, h, isOkB, Bind.bind, Except.bind]
    | ok t => simp [TimePicker.make, h, isOkB, Bind.bind, Except.bind]
  · rw [← to_text_inl_isOk p true 75 (by omega)]
    cases h : Text.to_text (some (Sum.inl p)) true (some 75) with
    | error e => simp [DatePicker.make, h, isOkB, Bind.bind, Except.bind]
    | ok t => simp [DatePicker.make, h, isOkB, Bind.bind, Except.bind]
  · rw [← to_text_inl_isOk p true 150 (by omega)]
    cases h : Text.to_text (some (Sum.inl p)) true (some 150) with
    | error e =>
      simp [StaticSelect.make, truthyOptList, truthyOptObj, h, isOkB,
        Bind.bind, Except.bind]
    | ok t =>
      simp [StaticSelect.make, truthyOptList, truthyOptObj, h, isOkB,
        Bind.bind, Except.bind]
  · rw [← to_text_inl_isOk p true 150 (by omega)]
    cases h : Text.to_text (some (Sum.inl p)) true (some 150) with
    | error e =>
      simp [MultiUsersSelect.make, h, isOkB, Bind.bind, Except.bind]
    | ok t =>
      simp [MultiUsersSelect.make, h, isOkB, Bind.bind, Except.bind]
  · rw [← to_text_inl_isOk p true 150 (by omega)]
    cases h : Text.to_text (some (Sum.inl p)) true (some 150) with
    | error e =>
      simp [TextInput.make, h, isOkB, Bind.bind, Except.bind]
    | ok t =>
      simp [TextInput.make, h, isOkB, Bind.bind, Except.bind]

/-- C7 amended witness. -/
theorem c7_placeholder_limits_witness :
    isOkB (TimePicker.make "a" none (some (Sum.inl p76)) none) = false
    ∧ isOkB (MultiUsersSelect.make "a" (Sum.inl p76) none none none)
      = true := by
  constructor
  · have h := (c7_placeholder_limits p76).1
    revert h
    decide
  · exact ((c7_placeholder_limits p76).2.2.2.1).mpr (by decide)

theorem isOkB_bind {α β : Type} (e : Except PyErr α)
    (f : α → Except PyErr β) :
    isOkB (e >>= f) = true ↔ ∃ x, e = Except.ok x ∧ isOkB (f x) = true := by
  cases e with
  | error er => simp [Bind.bind, Except.bind, isOkB]
  | ok x => simp [Bind.bind, Except.bind, isOkB]

/-- C10: A `StaticSelect` whose `initial_option` is a non-empty plain
string (the type its constructor declares) never resolves to a mapping:
resolution calls `._resolve()` on the string and fails; a successful
resolution requires `initial_option` to be absent (falsy) or a resolvable
`OptionObject`. -/
theorem c10_initial_option_string_unresolvable (ss : StaticSelect) :
    (∀ s, ss.initial_option = some (Sum.inl s) → s ≠ "" →
      isOkB ss.resolve = false)
    ∧ (isOkB ss.resolve = true →
      ss.initial_option = none
      ∨ ss.initial_option = some (Sum.inl "")
      ∨ ∃ oo, ss.initial_option = some (Sum.inr oo)
          ∧ isOkB oo.resolve = true) := by
  have key : isOkB ss.resolve = true →
      (match ss.initial_option with
       | none => True
       | some (.inl s) => s = ""
       | some (.inr oo) => isOkB oo.resolve = true) := by
    intro h
    simp only [StaticSelect.resolve] at h
    rw [isOkB_bind] at h
    obtain ⟨p, -, h⟩ := h
    cases hio : ss.initial_option with
    | none => trivial
    | some v =>
      cases v with
      | inl s =>
        by_cases hs : s = ""
        · exact hs
        · exfalso
          simp only [hio] at h
          by_cases ho : truthyOptList ss.options = true
          · rw [if_pos ho] at h
            rw [isOkB_bind] at h
            obtain ⟨os, -, h⟩ := h
            rw [isOkB_bind] at h
            obtain ⟨y, -, h⟩ := h
            rw [if_neg hs] at h
            simp [Bind.bind, Except.bind, isOkB] at h
          · rw [if_neg ho] at h
            cases hog : ss.option_group with
            | some og =>
              simp only [hog] at h
              rw [isOkB_bind] at h
              obtain ⟨ogv, -, h⟩ := h
              rw [isOkB_bind] at h
              obtain ⟨y, -, h⟩ := h
              rw [if_neg hs] at h
              simp [Bind.bind, Except.bind, isOkB] at h
            | none =>
              simp only [hog] at h
              rw [isOkB_bind] at h
              obtain ⟨y, -, h⟩ := h
              rw [if_neg hs] at h
              simp [Bind.bind, Except.bind, isOkB] at h
      | inr oo =>
        simp only [hio] at h
        by_cases ho : truthyOptList ss.options = true
        · rw [if_pos ho] at h
          rw [isOkB_bind] at h
          obtain ⟨os, -, h⟩ := h
          rw [isOkB_bind] at h
          obtain ⟨y, -, h⟩ := h
          rw [isOkB_bind] at h
          obtain ⟨ov, hov, -⟩ := h
          show isOkB oo.resolve = true
          rw [hov]
          rfl
        · rw [if_neg ho] at h
          cases hog : ss.option_group with
          | some og =>
            simp only [hog] at h
            rw [isOkB_bind] at h
            obtain ⟨ogv, -, h⟩ := h
            rw [isOkB_bind] at h
            obtain ⟨y, -, h⟩ := h
            rw [isOkB_bind] at h
            obtain ⟨ov, hov, -⟩ := h
            show isOkB oo.resolve = true
            rw [hov]
            rfl
          | none =>
            simp only [hog] at h
            rw [isOkB_bind] at h
            obtain ⟨y, -, h⟩ := h
            rw [isOkB_bind] at h
            obtain ⟨ov, hov, -⟩ := h
            show isOkB oo.resolve = true
            rw [hov]
            rfl
  constructor
  · intro s hio hs
    cases hok : isOkB ss.resolve with
    | false => rfl
    | true =>
      have := key hok
      rw [hio] at this
      simp only at this
      exact absurd this hs
  · intro h
    have hk := key h
    cases hio : ss.initial_option with
    | none => exact Or.inl rfl
    | some v =>
      cases v with
      | inl s =>
        rw [hio] at hk
        simp only at hk
        subst hk
        exact Or.inr (Or.inl rfl)
      | inr oo =>
        rw [hio] at hk
        simp only at hk
        exact Or.inr (Or.inr ⟨oo, rfl, hk⟩)

/-- The `StaticSelect` built by
`StaticSelect("a", "p", options=[ooX], initial_option="init")`. -/
def ssInit : StaticSelect :=
  { action_id := "a", options := some [ooX], option_group := none,
    placeholder := some (Text.make "p" .PLAINTEXT),
    initial_option := some (Sum.inl "init"), confirm := none }

/-- C10 witness. -/
theorem c10_initial_option_string_unresolvable_witness :
    isOkB ssInit.resolve = false :=
  (c10_initial_option_string_unresolvable ssInit).1 "init" rfl (by decide)

end Slackblocks
